import Mathlib

/-!
# Verification of the AI-mirror exercise-tracking front end

Shallow embedding of the rep-counting pipeline, streaming-transport gating,
prediction application and host-bridge logic of the repository's front end
(`frontend/app/components/WebcamPose.tsx`, `frontend/app/components/PressPose.tsx`,
`frontend/app/services/flutterBridge.ts`), together with theorems settling the
spec's claims about them.

JavaScript numbers are modelled as `ℚ` (every concrete value handled by the
claims is a finite decimal; `Number.isFinite` checks therefore become the
distinction between `some q` and `none` when a field may carry a non-number
or non-finite value).  The arccosine-based angle formula is modelled over `ℝ`
in its own section.  Frame-pipeline state held in React refs becomes explicit
state records, and each event handler becomes a step function from state and
the handler's inputs to the new state plus its observable outputs.
-/

attribute [local semireducible] Rat.add Rat.sub Rat.mul Rat.inv

/-- JavaScript `String.prototype.trim()`: strips leading and trailing
whitespace.  Implemented over the character list so that concrete instances
evaluate. -/
def trimString (s : String) : String :=
  ⟨((s.data.dropWhile Char.isWhitespace).reverse.dropWhile
    Char.isWhitespace).reverse⟩

/-- Rep stage as stored in `repStageRef`: the TS value is `"up" | "down" | null`;
`null` (neutral) is modelled as `none : Option Stage`. -/
inductive Stage where
  | down : Stage
  | up : Stage
deriving DecidableEq, Repr

/-- Pose status values of `WebcamPose.tsx` (`poseStatus` state). -/
inductive PoseStatus where
  | not_visible : PoseStatus
  | unstable : PoseStatus
  | invalid_posture : PoseStatus
  | ready : PoseStatus
deriving DecidableEq, Repr

/-- One MediaPipe pose landmark `{x, y, z}` (normalized coordinates). -/
structure Landmark where
  x : ℚ
  y : ℚ
  z : ℚ
deriving DecidableEq, Repr

/-- `REQUIRED_LANDMARK_INDICES` of `WebcamPose.tsx` (12-index transport subset). -/
def REQUIRED_LANDMARK_INDICES : List ℕ := [11, 12, 13, 14, 15, 16, 23, 24, 25, 26, 27, 28]

/-- `VISIBILITY_LANDMARK_INDICES` of `WebcamPose.tsx` (8-index visibility subset). -/
def VISIBILITY_LANDMARK_INDICES : List ℕ := [11, 12, 23, 24, 25, 26, 27, 28]

/-- `STABILITY_FRAME_COUNT` in `WebcamPose.tsx`. -/
def STABILITY_FRAME_COUNT : ℕ := 5

/-- `STABILITY_THRESHOLD` in `WebcamPose.tsx` (degrees). -/
def STABILITY_THRESHOLD : ℚ := 6

/-- `downThreshold` local constant of the squat counting branch in `WebcamPose.tsx`. -/
def downThreshold : ℚ := 100

/-- `upThreshold` local constant of the squat counting branch in `WebcamPose.tsx`. -/
def upThreshold : ℚ := 160

/-- `motionThreshold` in `WebcamPose.tsx` (0.003 in normalized units). -/
def motionThreshold : ℚ := 3 / 1000

/-- `sendIntervalMs` in `WebcamPose.tsx`. -/
def sendIntervalMs : ℚ := 100

/-- `isPoseFullyVisible` of `WebcamPose.tsx`: every landmark of the 8-index
visibility subset must exist and lie inside the central band
`[0.05, 0.95]` on both axes, and the video must have positive dimensions. -/
def isPoseFullyVisible (landmarks : Option (List Landmark))
    (videoWidth videoHeight : ℚ) : Bool :=
  match landmarks with
  | none => false
  | some lms =>
    if videoWidth ≤ 0 ∨ videoHeight ≤ 0 then false
    else VISIBILITY_LANDMARK_INDICES.all fun idx =>
      match lms.get? idx with
      | none => false
      | some lm =>
        !(decide (lm.x < 1/20) || decide (lm.x > 19/20) ||
          decide (lm.y < 1/20) || decide (lm.y > 19/20))

/-- `isPostureValid` of `WebcamPose.tsx`: torso height at least 0.2 of frame,
shoulders above hips, and shoulder vertical asymmetry strictly below 0.08. -/
def isPostureValid (landmarks : Option (List Landmark)) : Bool :=
  match landmarks with
  | none => false
  | some lms =>
    match lms.get? 11, lms.get? 12, lms.get? 23, lms.get? 24 with
    | some lShoulder, some rShoulder, some lHip, some rHip =>
      let avgShoulderY := (lShoulder.y + rShoulder.y) / 2
      let avgHipY := (lHip.y + rHip.y) / 2
      let torsoHeight := avgHipY - avgShoulderY
      if torsoHeight < 1/5 then false
      else if avgShoulderY ≥ avgHipY then false
      else if |lShoulder.y - rShoulder.y| ≥ 2/25 then false
      else true
    | _, _, _, _ => false

/-- `isPoseStable` of `WebcamPose.tsx`: fewer than 2 history samples is
unstable; otherwise the maximum adjacent delta must stay below
`STABILITY_THRESHOLD`. -/
def isPoseStable (angleHistory : List ℚ) : Bool :=
  if angleHistory.length < 2 then false
  else
    let deltas := (angleHistory.zip angleHistory.tail).map fun p => |p.2 - p.1|
    decide (deltas.foldl max 0 < STABILITY_THRESHOLD)

/-- The six knee-tracking joints (`landmarks[23,25,27,24,26,28]`) the squat
branch of `WebcamPose.tsx` destructures before computing angles. -/
def jointsPresent (lms : List Landmark) : Bool :=
  (lms.get? 23).isSome && (lms.get? 25).isSome && (lms.get? 27).isSome &&
  (lms.get? 24).isSome && (lms.get? 26).isSome && (lms.get? 28).isSome

/-- The history update of `WebcamPose.tsx`: push the new angle, then `shift`
once if the window exceeds `STABILITY_FRAME_COUNT`. -/
def pushHistory (history : List ℚ) (angle : ℚ) : List ℚ :=
  let h := history ++ [angle]
  if STABILITY_FRAME_COUNT < h.length then h.tail else h

/-- `reachedTarget` condition of `WebcamPose.tsx`
(`target !== null && target > 0 && repCountRef.current >= target`). -/
def reachedTarget (target : Option ℚ) (repCount : ℚ) : Prop :=
  match target with
  | some t => 0 < t ∧ t ≤ repCount
  | none => False

instance (target : Option ℚ) (repCount : ℚ) : Decidable (reachedTarget target repCount) := by
  unfold reachedTarget
  cases target <;> infer_instance

/-- Counting state of `WebcamPose.tsx` held in refs:
`repCountRef`, `repStageRef`, `kneeAngleHistoryRef`. -/
structure CountState where
  repCount : ℚ
  repStage : Option Stage
  kneeAngleHistory : List ℚ
deriving DecidableEq, Repr

/-- The rep-counting portion of the `pose.onResults` handler of
`WebcamPose.tsx` (the target-reps guard, the visibility/posture/stability
gates and the down/up threshold state machine).  `kneeAngle` is the averaged
knee angle the feature extractor (`calculateAngle`, modelled over `ℝ` below)
produces for this frame; it is only consulted when the six knee joints are
present.  Returns the new counting state and the frame's derived pose status. -/
def countingStep (s : CountState) (target : Option ℚ)
    (poseLandmarks : Option (List Landmark)) (videoWidth videoHeight : ℚ)
    (kneeAngle : ℚ) : CountState × PoseStatus :=
  if reachedTarget target s.repCount then
    ({ s with repStage := none }, .not_visible)
  else
    match poseLandmarks with
    | none => (s, .not_visible)
    | some lms =>
      if isPoseFullyVisible (some lms) videoWidth videoHeight = false then
        ({ s with repStage := none, kneeAngleHistory := [] }, .not_visible)
      else if jointsPresent lms = false then
        (s, .not_visible)
      else if s.repStage = none ∧ upThreshold < kneeAngle ∧
          isPostureValid (some lms) = false then
        ({ s with repStage := none, kneeAngleHistory := [] }, .invalid_posture)
      else
        let history := pushHistory s.kneeAngleHistory kneeAngle
        if s.repStage = none ∧ upThreshold < kneeAngle ∧
            isPoseStable history = false then
          ({ s with repStage := none, kneeAngleHistory := history }, .unstable)
        else
          let stage1 := if kneeAngle < downThreshold then some Stage.down else s.repStage
          if upThreshold < kneeAngle ∧ stage1 = some Stage.down then
            ({ repCount := s.repCount + 1, repStage := some Stage.up,
               kneeAngleHistory := history }, .ready)
          else
            ({ s with repStage := stage1, kneeAngleHistory := history }, .ready)

/-- Per-frame inputs to the counting pipeline. -/
structure FrameIn where
  poseLandmarks : Option (List Landmark)
  videoWidth : ℚ
  videoHeight : ℚ
  kneeAngle : ℚ
deriving DecidableEq, Repr

/-- Running the counting pipeline over a sequence of frames (fixed target). -/
def runFrames (s : CountState) (target : Option ℚ) : List FrameIn → CountState
  | [] => s
  | f :: fs =>
    runFrames (countingStep s target f.poseLandmarks f.videoWidth f.videoHeight
      f.kneeAngle).1 target fs

/-! ## PressPose.tsx: the overhead-press counting variant -/

/-- `VISIBILITY_INDICES` of `PressPose.tsx`. -/
def VISIBILITY_INDICES : List ℕ := [11, 12, 13, 14, 15, 16, 23, 24]

/-- `isMostlyVisible` of `PressPose.tsx`: only requires presence of the key
joints (no coordinate band check). -/
def isMostlyVisible (landmarks : Option (List Landmark)) : Bool :=
  match landmarks with
  | none => false
  | some lms => VISIBILITY_INDICES.all fun idx => (lms.get? idx).isSome

/-- `isTorsoUpright` of `PressPose.tsx`. -/
def isTorsoUpright (landmarks : Option (List Landmark)) : Bool :=
  match landmarks with
  | none => false
  | some lms =>
    match lms.get? 11, lms.get? 12, lms.get? 23, lms.get? 24 with
    | some lShoulder, some rShoulder, some lHip, some rHip =>
      let avgShoulderY := (lShoulder.y + rShoulder.y) / 2
      let avgHipY := (lHip.y + rHip.y) / 2
      if avgShoulderY ≥ avgHipY then false
      else if |lShoulder.y - rShoulder.y| > 2/25 then false
      else if |lHip.y - rHip.y| > 2/25 then false
      else true
    | _, _, _, _ => false

/-- `STABILITY_FRAMES` of `PressPose.tsx`. -/
def STABILITY_FRAMES : ℕ := 2

/-- `STABILITY_DELTA` of `PressPose.tsx` (degrees). -/
def STABILITY_DELTA : ℚ := 20

/-- `bottomElbowMax` of `PressPose.tsx`. -/
def bottomElbowMax : ℚ := 125

/-- `bottomElbowMin` of `PressPose.tsx`. -/
def bottomElbowMin : ℚ := 60

/-- `topElbowMin` of `PressPose.tsx`. -/
def topElbowMin : ℚ := 165

/-- `minOverheadLift` of `PressPose.tsx` (0.14). -/
def minOverheadLift : ℚ := 7/50

/-- `shoulderBand` of `PressPose.tsx` (0.14). -/
def shoulderBand : ℚ := 7/50

/-- `horizontalAlignTolerance` of `PressPose.tsx` (0.35). -/
def horizontalAlignTolerance : ℚ := 7/20

/-- Counting state of `PressPose.tsx` held in refs/state:
`repCountRef`, `repStageRef`, `angleHistoryRef`, `showCompletion`. -/
structure PressState where
  repCount : ℚ
  repStage : Option Stage
  angleHistory : List ℚ
  showCompletion : Bool
deriving DecidableEq, Repr

/-- The increment guard `!targetReps || repCountRef.current < targetReps` of
`PressPose.tsx` (`!targetReps` is JavaScript truthiness: true for
`null`/`undefined` and for `0`). -/
def canIncrement (target : Option ℚ) (repCount : ℚ) : Prop :=
  match target with
  | none => True
  | some t => t = 0 ∨ repCount < t

instance (target : Option ℚ) (repCount : ℚ) :
    Decidable (canIncrement target repCount) := by
  unfold canIncrement
  cases target <;> infer_instance

/-- The completion test `targetReps && repCountRef.current >= targetReps` of
`PressPose.tsx` (`targetReps` truthy means non-`null` and non-zero). -/
def pressCompleted (target : Option ℚ) (repCount : ℚ) : Bool :=
  match target with
  | some t => decide (¬t = 0 ∧ t ≤ repCount)
  | none => false

/-- The rep-counting portion of the `pose.onResults` handler of
`PressPose.tsx`.  `leftAngle` and `rightAngle` are the elbow angles the
feature extractor produces for this frame (consulted only when the six arm
joints are present).  Returns the new state and the frame's pose status
(`PressPose` only derives `not_visible` or `ready`). -/
def pressStep (s : PressState) (targetReps : Option ℚ)
    (landmarks : Option (List Landmark)) (leftAngle rightAngle : ℚ) :
    PressState × PoseStatus :=
  if isMostlyVisible landmarks && isTorsoUpright landmarks then
    match landmarks.bind (·.get? 11), landmarks.bind (·.get? 13),
        landmarks.bind (·.get? 15), landmarks.bind (·.get? 12),
        landmarks.bind (·.get? 14), landmarks.bind (·.get? 16) with
    | some lShoulder, some _lElbow, some lWrist, some rShoulder,
        some _rElbow, some rWrist =>
      let avgAngle := (leftAngle + rightAngle) / 2
      let avgShoulderY := (lShoulder.y + rShoulder.y) / 2
      let wristsHorizAligned :=
        |lWrist.x - lShoulder.x| ≤ horizontalAlignTolerance ∧
        |rWrist.x - rShoulder.x| ≤ horizontalAlignTolerance
      let wristsAtShoulderHeight :=
        |lWrist.y - avgShoulderY| ≤ shoulderBand ∧
        |rWrist.y - avgShoulderY| ≤ shoulderBand
      let wristsClearlyOverhead :=
        lWrist.y < avgShoulderY - minOverheadLift ∧
        rWrist.y < avgShoulderY - minOverheadLift
      let history :=
        let h := s.angleHistory ++ [avgAngle]
        if STABILITY_FRAMES < h.length then h.tail else h
      let stableEnough :=
        STABILITY_FRAMES ≤ history.length ∧
        |(history.getLast?.getD 0) - (history.head?.getD 0)| < STABILITY_DELTA
      if stableEnough ∧ wristsHorizAligned then
        let isBottom :=
          leftAngle ≤ bottomElbowMax ∧ bottomElbowMin ≤ leftAngle ∧
          rightAngle ≤ bottomElbowMax ∧ bottomElbowMin ≤ rightAngle ∧
          wristsAtShoulderHeight
        let isTop :=
          topElbowMin ≤ leftAngle ∧ topElbowMin ≤ rightAngle ∧
          wristsClearlyOverhead
        let stage1 := if isBottom then some Stage.down else s.repStage
        if isTop ∧ stage1 = some Stage.down then
          if canIncrement targetReps s.repCount then
            let newCount := s.repCount + 1
            ({ repCount := newCount, repStage := some Stage.up,
               angleHistory := history,
               showCompletion :=
                 s.showCompletion || pressCompleted targetReps newCount }, .ready)
          else
            ({ s with repStage := some Stage.up, angleHistory := history }, .ready)
        else
          ({ s with repStage := stage1, angleHistory := history }, .ready)
      else
        ({ s with angleHistory := history }, .ready)
    | _, _, _, _, _, _ => (s, .not_visible)
  else
    ({ s with repStage := none, angleHistory := [] }, .not_visible)

/-! ## WebcamPose.tsx: streaming-transport state machine -/

/-- Transport-side state of `WebcamPose.tsx` held in refs/state:
`wsFailureCountRef`, `useRestFallback`, `reconnectTimeoutRef` (modelled as a
pending/not-pending flag; the growing backoff delay does not influence any
claim). -/
structure TransportState where
  wsFailureCount : ℕ
  useRestFallback : Bool
  reconnectTimerPending : Bool
deriving DecidableEq, Repr

/-- Events the socket lifecycle of `WebcamPose.tsx` reacts to: the socket's
`onopen`/`onerror`/`onclose` handlers, the reconnect timer firing (which runs
`connect()`, itself guarded by `useRestFallback`), and the manual
`handleRetryWebsocket` action. -/
inductive SocketEvent where
  | onOpen : SocketEvent
  | onError : SocketEvent
  | onClose : SocketEvent
  | timerFire : SocketEvent
  | manualReset : SocketEvent
deriving DecidableEq, Repr

/-- One transition of the socket lifecycle of `WebcamPose.tsx`.  The returned
`Bool` is true when the event leads `connect()` to attempt a new socket
connection (a reconnect attempt). -/
def socketStep (s : TransportState) : SocketEvent → TransportState × Bool
  | .onOpen =>
    ({ s with useRestFallback := false, wsFailureCount := 0 }, false)
  | .onError =>
    ({ s with wsFailureCount := s.wsFailureCount + 1 }, false)
  | .onClose =>
    let n := s.wsFailureCount + 1
    if 3 ≤ n then
      ({ wsFailureCount := n, useRestFallback := true,
         reconnectTimerPending := false }, false)
    else if s.reconnectTimerPending then
      ({ s with wsFailureCount := n }, false)
    else
      ({ s with wsFailureCount := n, reconnectTimerPending := true }, false)
  | .timerFire =>
    if s.reconnectTimerPending then
      if s.useRestFallback then
        ({ s with reconnectTimerPending := false }, false)
      else
        ({ s with reconnectTimerPending := false }, true)
    else (s, false)
  | .manualReset =>
    ({ wsFailureCount := 0, useRestFallback := false,
       reconnectTimerPending := false }, false)

/-- Running the socket lifecycle over a sequence of events, collecting the
per-event reconnect-attempt flags. -/
def runSocketEvents (s : TransportState) :
    List SocketEvent → TransportState × List Bool
  | [] => (s, [])
  | e :: es =>
    let r := socketStep s e
    let rest := runSocketEvents r.1 es
    (rest.1, r.2 :: rest.2)

/-! ## WebcamPose.tsx: send gating -/

/-- `formatLandmarks` of `WebcamPose.tsx`: `null` unless exactly 33 landmarks
are present, otherwise the `[x, y, z]` triples.  (The per-coordinate
`Number.isFinite` check of the source is vacuous over `ℚ`, where every value
is a finite number.) -/
def formatLandmarks (poseLandmarks : Option (List Landmark)) :
    Option (List (List ℚ)) :=
  match poseLandmarks with
  | none => none
  | some lms =>
    if lms.length = 33 then some (lms.map fun lm => [lm.x, lm.y, lm.z])
    else none

/-- The 12-index transport subset `REQUIRED_LANDMARK_INDICES.map((idx) =>
formattedLandmarks[idx])` of `WebcamPose.tsx`. -/
def filterRequired (formatted : List (List ℚ)) : List (List ℚ) :=
  REQUIRED_LANDMARK_INDICES.map fun idx => formatted.getD idx []

/-- `isValidLandmarks` of `WebcamPose.tsx`: 12 points, each a triple whose
first two coordinates are strictly positive (finiteness again vacuous
over `ℚ`). -/
def isValidLandmarks (keypoints : Option (List (List ℚ))) : Bool :=
  match keypoints with
  | none => false
  | some kps =>
    decide (kps.length = REQUIRED_LANDMARK_INDICES.length) &&
    kps.all fun pt =>
      decide (pt.length = 3) && decide (0 < pt.getD 0 0) &&
      decide (0 < pt.getD 1 0)

/-- The maximum absolute vertical (`[1]`) delta between corresponding
keypoints, as computed by the loop inside `hasSufficientMotion` of
`WebcamPose.tsx` (both call sites pass two valid 12-point lists, so pairing
by `zip` matches the source's index loop). -/
def maxVerticalDelta (current lastSent : List (List ℚ)) : ℚ :=
  (current.zip lastSent).foldl (fun m p => max m |p.1.getD 1 0 - p.2.getD 1 0|) 0

/-- `hasSufficientMotion` of `WebcamPose.tsx`: false with no last-sent
baseline, otherwise the max vertical delta must reach `motionThreshold`. -/
def hasSufficientMotion (current : List (List ℚ))
    (lastSent : Option (List (List ℚ))) : Bool :=
  match lastSent with
  | none => false
  | some last => decide (motionThreshold ≤ maxVerticalDelta current last)

/-- Send-gating state of `WebcamPose.tsx`: `lastSendRef` and
`lastSentKeypointsRef`. -/
structure SendState where
  lastSendTime : ℚ
  lastSentKeypoints : Option (List (List ℚ))
deriving DecidableEq, Repr

/-- The send-gating portion of the `pose.onResults` handler of
`WebcamPose.tsx`.  `transportReady` abstracts "a transport will accept the
send" (`useRestFallback`, or an open socket whose `send` does not throw);
both transport branches update `lastSentKeypointsRef` and `lastSendRef`
exactly when they send.  Returns the new state and whether a sample was
sent to the remote predictor. -/
def sendGateStep (s : SendState) (now : ℚ)
    (poseLandmarks : Option (List Landmark)) (transportReady : Bool) :
    SendState × Bool :=
  match poseLandmarks with
  | none => (s, false)
  | some lms =>
    if sendIntervalMs ≤ now - s.lastSendTime then
      match (formatLandmarks (some lms)).map filterRequired with
      | some kps =>
        if isValidLandmarks (some kps) then
          match s.lastSentKeypoints with
          | none => ({ s with lastSentKeypoints := some kps }, false)
          | some _ =>
            if hasSufficientMotion kps s.lastSentKeypoints then
              if transportReady then
                ({ lastSendTime := now, lastSentKeypoints := some kps }, true)
              else (s, false)
            else (s, false)
        else (s, false)
      | none => (s, false)
    else (s, false)

/-! ## WebcamPose.tsx: prediction application and exercise-change reset -/

/-- The `prediction` state of `WebcamPose.tsx` (`{ exercise, confidence }`). -/
structure Prediction where
  exercise : String
  confidence : ℚ
deriving DecidableEq, Repr

/-- The fields of the loosely-typed classification payload `data` that
`applyPredictionUpdate` of `WebcamPose.tsx` inspects.  `some` models a value
passing the source's `typeof ... === "number" && Number.isFinite(...)`
(resp. `typeof ... === "string"`) check; `none` models an absent,
differently-typed, or non-finite value. -/
structure PredictionData where
  exercise : Option String
  confidence : Option ℚ
  rep_count : Option ℚ
  reps : Option ℚ
  timestamp : Option ℚ
deriving DecidableEq, Repr

/-- `applyPredictionUpdate` of `WebcamPose.tsx`: returns the new `prediction`
state and the new rep count, given the current rep count.  (`setLatencyMs`
has no bearing on any claim and is omitted.) -/
def applyPredictionUpdate (repCount : ℚ) (data : PredictionData) :
    Prediction × ℚ :=
  let rawExercise := match data.exercise with
    | some s => trimString s
    | none => ""
  let exercise := if 0 < rawExercise.length then rawExercise else ""
  let confidence := match data.confidence with
    | some c => c
    | none => 0
  let newPrediction : Prediction :=
    ⟨exercise, if 0 < exercise.length then confidence else 0⟩
  let repsValue : Option ℚ := match data.rep_count with
    | some r => some r
    | none => data.reps
  let newCount := match repsValue with
    | some r => if 0 < r then r else repCount
    | none => repCount
  (newPrediction, newCount)

/-- Session-level state of `WebcamPose.tsx` touched by the exercise-change
`useEffect` (lines 106-117). -/
structure WebcamSession where
  count : CountState
  lastSentKeypoints : Option (List (List ℚ))
  prediction : Prediction
  showCompletion : Bool
deriving DecidableEq, Repr

/-- The exercise-identifier-change `useEffect` of `WebcamPose.tsx`: resets
rep count, stage, angle history, send baseline, prediction and the
completion flag. -/
def exerciseChangeReset (_s : WebcamSession) : WebcamSession :=
  { count := { repCount := 0, repStage := none, kneeAngleHistory := [] },
    lastSentKeypoints := none,
    prediction := ⟨"", 0⟩,
    showCompletion := false }

/-! ## services/flutterBridge.ts -/

/-- Module-level state of `flutterBridge.ts`: `flutterReady` and `sentOnce`. -/
structure BridgeState where
  flutterReady : Bool
  sentOnce : Bool
deriving DecidableEq, Repr

/-- The payload fields `sendExerciseCompletedToFlutter` validates.  `some`
models a value of the checked runtime type (`string` for the first four
fields, finite `number` for `repsDone`); `none` models any other runtime
value for that field. -/
structure CompletedPayload where
  type : Option String
  userId : Option String
  slotId : Option String
  exerciseStatus : Option String
  repsDone : Option ℚ
deriving DecidableEq, Repr

/-- The field validation of `sendExerciseCompletedToFlutter`
(`flutterBridge.ts` lines 41-47): type literal, non-empty trimmed
`userId`/`slotId` strings, one of the three status literals, and a finite
`repsDone >= 0`. -/
def payloadChecksPass (p : CompletedPayload) : Bool :=
  decide (p.type = some "EXERCISE_COMPLETED") &&
  (match p.userId with
   | some u => decide (0 < (trimString u).length)
   | none => false) &&
  (match p.slotId with
   | some v => decide (0 < (trimString v).length)
   | none => false) &&
  (match p.exerciseStatus with
   | some st =>
     decide (st = "done" ∨ st = "tobecontinued" ∨ st = "no_performance")
   | none => false) &&
  (match p.repsDone with
   | some r => decide (0 ≤ r)
   | none => false)

/-- Outcome of the host's `callHandler("completeExercise", ...)` call: an
`EXERCISE_ACK`-shaped response, any other response value, or a thrown
exception (caught by the surrounding `try`). -/
inductive HostResponse where
  | ack : HostResponse
  | other : HostResponse
  | throwErr : HostResponse
deriving DecidableEq, Repr

/-- `sendExerciseCompletedToFlutter` of `flutterBridge.ts`.  Returns the new
module state, the resolved value (`some .ack` when the response is returned,
`none` for every `return null` path including a caught exception), and
whether the host handler was invoked. -/
def sendExerciseCompletedToFlutter (st : BridgeState) (p : CompletedPayload)
    (handlerAvailable : Bool) (response : HostResponse) :
    BridgeState × Option HostResponse × Bool :=
  if st.sentOnce then (st, none, false)
  else if !st.flutterReady then (st, none, false)
  else if !payloadChecksPass p then (st, none, false)
  else if !handlerAvailable then (st, none, false)
  else
    match response with
    | .ack => ({ st with sentOnce := true }, some .ack, true)
    | .other => (st, none, true)
    | .throwErr => (st, none, true)

/-- One call to the bridge: the payload, whether
`window.flutter_inappwebview.callHandler` exists, and how the host call
resolves. -/
structure BridgeCall where
  payload : CompletedPayload
  handlerAvailable : Bool
  response : HostResponse
deriving DecidableEq, Repr

/-- A sequence of bridge calls within one session, collecting each call's
resolved value and whether it invoked the host. -/
def runBridgeCalls (st : BridgeState) :
    List BridgeCall → List (Option HostResponse × Bool)
  | [] => []
  | c :: cs =>
    let r := sendExerciseCompletedToFlutter st c.payload c.handlerAvailable
      c.response
    (r.2.1, r.2.2) :: runBridgeCalls r.1 cs

/-! ## calculateAngle (WebcamPose.tsx / PressPose.tsx)

The dot-product/arccosine angle at a vertex.  The identical function appears
in both `WebcamPose.tsx` and `PressPose.tsx`; its floating-point arithmetic
is modelled over `ℝ` (`Math.hypot x y = Real.sqrt (x^2 + y^2)`,
`Math.acos = Real.arccos`, and `180 / Math.PI` scales radians to degrees). -/

/-- A landmark with real coordinates, for the angle computation. -/
structure LandmarkR where
  x : ℝ
  y : ℝ
  z : ℝ

open scoped Classical in
/-- `calculateAngle` of `WebcamPose.tsx` (lines 194-205) and `PressPose.tsx`
(lines 45-56): angle at vertex `b` between limb endpoints `a` and `c`, in
degrees; zero-length limb vectors yield 180. -/
noncomputable def calculateAngle (a b c : LandmarkR) : ℝ :=
  let abx := a.x - b.x
  let aby := a.y - b.y
  let cbx := c.x - b.x
  let cby := c.y - b.y
  let dot := abx * cbx + aby * cby
  let magAB := Real.sqrt (abx ^ 2 + aby ^ 2)
  let magCB := Real.sqrt (cbx ^ 2 + cby ^ 2)
  if magAB = 0 ∨ magCB = 0 then 180
  else
    let cosv := min (max (dot / (magAB * magCB)) (-1)) 1
    Real.arccos cosv * (180 / Real.pi)

/-! ## Claims about the counting pipeline -/

/-- The counting step either preserves the rep count or increments it by 1. -/
lemma countingStep_count (s : CountState) (target : Option ℚ)
    (lm : Option (List Landmark)) (vw vh kneeAngle : ℚ) :
    (countingStep s target lm vw vh kneeAngle).1.repCount = s.repCount ∨
    (countingStep s target lm vw vh kneeAngle).1.repCount = s.repCount + 1 := by
  rcases lm with _ | lms <;> simp only [countingStep] <;> split_ifs <;> simp

/-- A 33-landmark sample standing centred in frame (all joints at the
frame centre), used to instantiate theorems at a fully visible pose. -/
def wLms : List Landmark := List.replicate 33 ⟨1/2, 1/2, 0⟩

/-- C1: a frame of the counting pipeline increments Rep Count by exactly 1
precisely when its derived Pose Status is `ready`, the stage entering the
frame is `down` and the tracked angle exceeds the up threshold; such a frame
moves the stage to `up`; no other frame changes the count; and a frame can
only commit the stage to `down` if it already was `down` or the angle is
below the down threshold (so consecutive above-threshold frames cannot
count again until the angle first drops below the down threshold). -/
theorem claim_C1_down_up_increments_once (s : CountState) (target : Option ℚ)
    (lm : Option (List Landmark)) (vw vh kneeAngle : ℚ) :
    ((countingStep s target lm vw vh kneeAngle).1.repCount = s.repCount + 1 ↔
      ((countingStep s target lm vw vh kneeAngle).2 = .ready ∧
        s.repStage = some .down ∧ upThreshold < kneeAngle)) ∧
    (((countingStep s target lm vw vh kneeAngle).2 = .ready ∧
        s.repStage = some .down ∧ upThreshold < kneeAngle) →
      (countingStep s target lm vw vh kneeAngle).1.repStage = some .up) ∧
    ((countingStep s target lm vw vh kneeAngle).1.repCount = s.repCount ∨
      (countingStep s target lm vw vh kneeAngle).1.repCount = s.repCount + 1) ∧
    ((countingStep s target lm vw vh kneeAngle).1.repStage = some .down →
      s.repStage = some .down ∨ kneeAngle < downThreshold) := by
  have hne : ¬s.repCount = s.repCount + 1 := ne_of_lt (lt_add_one s.repCount)
  have hud : downThreshold < upThreshold := by
    norm_num [downThreshold, upThreshold]
  refine ⟨?_, ?_, countingStep_count s target lm vw vh kneeAngle, ?_⟩ <;>
    rcases lm with _ | lms <;>
    simp only [countingStep] <;>
    split_ifs <;>
    simp_all <;>
    first
      | rfl
      | (exact fun h => Or.inl h)
      | linarith
      | (intro hd; by_contra hcon; simp_all)

/-- Witness for C1: a fully visible frame at knee angle 170 with stage
`down` has status `ready`, increments the count from 0 to 1 and moves the
stage to `up`. -/
theorem claim_C1_down_up_increments_once_witness :
    (countingStep ⟨0, some .down, []⟩ none (some wLms) 640 480 170).2 = .ready ∧
    (countingStep ⟨0, some .down, []⟩ none (some wLms) 640 480 170).1.repCount = 0 + 1 ∧
    (countingStep ⟨0, some .down, []⟩ none (some wLms) 640 480 170).1.repStage = some .up := by
  have h := claim_C1_down_up_increments_once ⟨0, some .down, []⟩ none (some wLms) 640 480 170
  refine ⟨by decide, ?_, h.2.1 ⟨by decide, rfl, by norm_num [upThreshold]⟩⟩
  exact h.1.mpr ⟨by decide, rfl, by norm_num [upThreshold]⟩

/-- C3: any frame whose derived Pose Status is not `ready` leaves Rep Count
unchanged and either leaves Rep Stage unchanged or forces it to neutral;
in particular it can never newly commit the stage to `down`. -/
theorem claim_C3_unready_frame_inert (s : CountState) (target : Option ℚ)
    (lm : Option (List Landmark)) (vw vh kneeAngle : ℚ)
    (h : (countingStep s target lm vw vh kneeAngle).2 ≠ .ready) :
    (countingStep s target lm vw vh kneeAngle).1.repCount = s.repCount ∧
    ((countingStep s target lm vw vh kneeAngle).1.repStage = s.repStage ∨
      (countingStep s target lm vw vh kneeAngle).1.repStage = none) ∧
    ((countingStep s target lm vw vh kneeAngle).1.repStage = some .down →
      s.repStage = some .down) := by
  rcases lm with _ | lms <;>
    simp only [countingStep] at h ⊢ <;>
    split_ifs at h ⊢ <;>
    simp_all

/-- Witness for C3: a frame with no detected landmarks is not `ready` and
leaves the counting state untouched. -/
theorem claim_C3_unready_frame_inert_witness :
    (countingStep ⟨2, some .down, [95]⟩ none none 640 480 170).2 ≠ .ready ∧
    (countingStep ⟨2, some .down, [95]⟩ none none 640 480 170).1.repCount = 2 ∧
    (countingStep ⟨2, some .down, [95]⟩ none none 640 480 170).1.repStage = some .down := by
  have h := claim_C3_unready_frame_inert ⟨2, some .down, [95]⟩ none none 640 480 170
    (by decide)
  exact ⟨by decide, h.1, by decide⟩

/-- A 25-landmark sample (indices 0-24) for the press pipeline: shoulders at
height 0.3, hips at 0.6, elbows at shoulder height, wrists slightly below
shoulder height and roughly above the shoulders — a valid "bottom"
position. -/
def cexPressLms : List Landmark :=
  List.replicate 11 ⟨0, 0, 0⟩ ++
  [⟨3/5, 3/10, 0⟩, ⟨2/5, 3/10, 0⟩, ⟨7/10, 3/10, 0⟩, ⟨3/10, 3/10, 0⟩,
   ⟨7/10, 7/20, 0⟩, ⟨3/10, 7/20, 0⟩] ++
  List.replicate 6 ⟨0, 0, 0⟩ ++
  [⟨3/5, 3/5, 0⟩, ⟨2/5, 3/5, 0⟩]

/-- Counterexample to C4 as stated: in the press pipeline, with a positive
target of 1 already reached (count 1), a bottom-position frame still commits
Rep Stage to `down` — the stage is not held at neutral (the target guard of
`PressPose.tsx` only freezes the count). -/
theorem claim_C4_counterexample :
    (0:ℚ) < 1 ∧
    (1:ℚ) ≤ (⟨1, none, [90], false⟩ : PressState).repCount ∧
    (pressStep ⟨1, none, [90], false⟩ (some 1) (some cexPressLms) 90 90).1.repCount = 1 ∧
    (pressStep ⟨1, none, [90], false⟩ (some 1) (some cexPressLms) 90 90).1.repStage
      = some Stage.down := by
  decide

/-- Once the webcam target guard fires, the counting step resets the stage
and leaves everything else untouched. -/
lemma countingStep_reached (s : CountState) (target : Option ℚ)
    (lm : Option (List Landmark)) (vw vh kneeAngle : ℚ)
    (h : reachedTarget target s.repCount) :
    countingStep s target lm vw vh kneeAngle =
      ({ s with repStage := none }, .not_visible) := by
  unfold countingStep
  rw [if_pos h]

/-- C4 (amended): with a positive target reached, every subsequent frame of
the `WebcamPose.tsx` pipeline leaves Rep Count unchanged and holds Rep Stage
at neutral; the `PressPose.tsx` pipeline likewise leaves Rep Count
unchanged, but (as the counterexample shows) its stage may keep tracking
bottom/top positions. -/
theorem claim_C4_amended :
    (∀ (s : CountState) (t : ℚ) (fs : List FrameIn), 0 < t → t ≤ s.repCount →
      (runFrames s (some t) fs).repCount = s.repCount ∧
      (fs ≠ [] → (runFrames s (some t) fs).repStage = none)) ∧
    (∀ (ps : PressState) (t : ℚ) (lm : Option (List Landmark)) (la ra : ℚ),
      0 < t → t ≤ ps.repCount →
      (pressStep ps (some t) lm la ra).1.repCount = ps.repCount) := by
  constructor
  · intro s t fs
    induction fs generalizing s with
    | nil => intro _ _; exact ⟨rfl, fun h => absurd rfl h⟩
    | cons f fs ih =>
      intro ht hc
      have hr : reachedTarget (some t) s.repCount := ⟨ht, hc⟩
      have hstep := countingStep_reached s (some t) f.poseLandmarks
        f.videoWidth f.videoHeight f.kneeAngle hr
      rcases fs with _ | ⟨g, gs⟩
      · simp [runFrames, hstep]
      · have := ih { s with repStage := none } ht hc
        simp only [runFrames, hstep] at *
        exact ⟨this.1, fun _ => this.2 (by simp)⟩
  · intro ps t lm la ra ht hc
    have hni : ¬canIncrement (some t) ps.repCount := by
      unfold canIncrement
      rintro (h0 | hlt) <;> linarith
    unfold pressStep
    split_ifs <;> try rfl
    all_goals (split <;> try rfl)
    all_goals (simp only [if_neg hni]; split_ifs <;> rfl)

/-- Witness for the amended C4: with target 2 reached, a frame leaves the
webcam count at 2 with neutral stage, and with target 1 reached the press
frame of the counterexample leaves the count at 1. -/
theorem claim_C4_amended_witness :
    (0:ℚ) < 2 ∧ (2:ℚ) ≤ 2 ∧
    (runFrames ⟨2, some .down, []⟩ (some 2) [⟨none, 640, 480, 170⟩]).repCount = 2 ∧
    (runFrames ⟨2, some .down, []⟩ (some 2) [⟨none, 640, 480, 170⟩]).repStage = none ∧
    (pressStep ⟨1, none, [90], false⟩ (some 1) (some cexPressLms) 90 90).1.repCount = 1 := by
  have h1 := claim_C4_amended.1 ⟨2, some .down, []⟩ 2 [⟨none, 640, 480, 170⟩]
    (by norm_num) (by norm_num)
  have h2 := claim_C4_amended.2 ⟨1, none, [90], false⟩ 1 (some cexPressLms) 90 90
    (by norm_num) (by norm_num)
  exact ⟨by norm_num, by norm_num, h1.1, h1.2 (by simp), h2⟩

/-- Counterexample to C2 as stated: a remote classification result carrying
`rep_count = 1` applied while the local count is 5 overwrites the count
downward to 1 — Rep Count is not non-decreasing across remote result
applications. -/
theorem claim_C2_counterexample :
    (applyPredictionUpdate 5 ⟨none, none, some 1, none, none⟩).2 = 1 ∧
    (applyPredictionUpdate 5 ⟨none, none, some 1, none, none⟩).2 < 5 := by
  decide

/-- C2 (amended): Rep Count is non-decreasing across frame-pipeline updates;
a remote classification result either leaves it unchanged or overwrites it
with a positive value (which may be smaller than the current count); no
within-session event can zero a positive count, and the exercise-change
reset sets it to 0. -/
theorem claim_C2_amended :
    (∀ (s : CountState) (target : Option ℚ) (lm : Option (List Landmark))
        (vw vh a : ℚ),
      s.repCount ≤ (countingStep s target lm vw vh a).1.repCount) ∧
    (∀ (c : ℚ) (d : PredictionData),
      (applyPredictionUpdate c d).2 = c ∨ 0 < (applyPredictionUpdate c d).2) ∧
    (∀ (c : ℚ) (d : PredictionData), 0 < c →
      0 < (applyPredictionUpdate c d).2) ∧
    (∀ s : WebcamSession, (exerciseChangeReset s).count.repCount = 0) := by
  have h2 : ∀ (c : ℚ) (d : PredictionData),
      (applyPredictionUpdate c d).2 = c ∨ 0 < (applyPredictionUpdate c d).2 := by
    intro c d
    simp only [applyPredictionUpdate]
    rcases hrc : d.rep_count with _ | r
    · rcases hr : d.reps with _ | r
      · simp [hr]
      · simp only []
        split_ifs with h
        · exact Or.inr h
        · exact Or.inl rfl
    · simp only []
      split_ifs with h
      · exact Or.inr h
      · exact Or.inl rfl
  refine ⟨?_, h2, ?_, fun s => rfl⟩
  · intro s target lm vw vh a
    rcases countingStep_count s target lm vw vh a with h | h <;> rw [h]
    linarith
  · intro c d hc
    rcases h2 c d with h | h
    · rw [h]; exact hc
    · exact h

/-- Witness for the amended C2: a positive count stays positive under a
remote update, and the exercise-change reset zeroes the count. -/
theorem claim_C2_amended_witness :
    (0:ℚ) < 5 ∧
    0 < (applyPredictionUpdate 5 ⟨none, none, some 1, none, none⟩).2 ∧
    (exerciseChangeReset
      ⟨⟨7, some .up, [100]⟩, some [[1, 1, 0]], ⟨"squat", 1/2⟩, true⟩).count.repCount
      = 0 := by
  exact ⟨by norm_num,
    claim_C2_amended.2.2.1 5 ⟨none, none, some 1, none, none⟩ (by norm_num),
    claim_C2_amended.2.2.2 _⟩

/-! ## Claims about the streaming transport -/

/-- The initial transport state of `WebcamPose.tsx` (counter 0, socket mode,
no pending timer). -/
def initialTransport : TransportState := ⟨0, false, false⟩

/-- Counterexample to C5 as stated: after the event sequence close, error,
error, the consecutive-failure counter has reached 3 but the transport mode
is still socket mode (`useRestFallback = false`), and the reconnect timer
scheduled at the first close can still fire an automatic reconnect attempt.
The threshold is only checked inside the `onclose` handler. -/
theorem claim_C5_counterexample :
    (runSocketEvents initialTransport [.onClose, .onError, .onError]).1.wsFailureCount = 3 ∧
    (runSocketEvents initialTransport [.onClose, .onError, .onError]).1.useRestFallback = false ∧
    (socketStep (runSocketEvents initialTransport [.onClose, .onError, .onError]).1
      .timerFire).2 = true := by
  decide

/-- While fallback mode is on with the counter at the threshold and no timer
pending, any event other than `onopen`/manual reset keeps fallback on, keeps
the counter at or above the threshold, schedules no timer and attempts no
reconnection. -/
lemma socketStep_fallback_inert (s : TransportState) (e : SocketEvent)
    (hf : s.useRestFallback = true) (hc : 3 ≤ s.wsFailureCount)
    (ht : s.reconnectTimerPending = false)
    (ho : e ≠ .onOpen) (hm : e ≠ .manualReset) :
    (socketStep s e).1.useRestFallback = true ∧
    3 ≤ (socketStep s e).1.wsFailureCount ∧
    (socketStep s e).1.reconnectTimerPending = false ∧
    (socketStep s e).2 = false := by
  cases e with
  | onOpen => exact absurd rfl ho
  | manualReset => exact absurd rfl hm
  | onError => exact ⟨hf, show 3 ≤ s.wsFailureCount + 1 by omega, ht, rfl⟩
  | onClose =>
    simp only [socketStep]
    rw [if_pos (by omega : 3 ≤ s.wsFailureCount + 1)]
    exact ⟨rfl, show 3 ≤ s.wsFailureCount + 1 by omega, rfl, rfl⟩
  | timerFire =>
    have hstep : socketStep s .timerFire = (s, false) := by
      simp [socketStep, ht]
    rw [hstep]
    exact ⟨hf, hc, ht, rfl⟩

/-- C5 (amended): the failure threshold is checked only on socket close
events — a close that brings the counter to 3 or more switches to fallback
mode and cancels any pending reconnect timer; from then on (fallback on,
counter at the threshold, no pending timer), no later error/close/timer
event schedules a reconnect timer, attempts a reconnection, or leaves
fallback mode, until the manual reset action zeroes the counter, cancels
the timer and turns fallback off.  (Error events merely increment the
counter: a counter that reaches 3 through errors alone does not yet switch
the mode, as the counterexample shows.) -/
theorem claim_C5_amended :
    (∀ s : TransportState, 2 ≤ s.wsFailureCount →
      (socketStep s .onClose).1.useRestFallback = true ∧
      (socketStep s .onClose).1.reconnectTimerPending = false) ∧
    (∀ (s : TransportState) (es : List SocketEvent),
      s.useRestFallback = true → 3 ≤ s.wsFailureCount →
      s.reconnectTimerPending = false →
      (∀ e ∈ es, e ≠ SocketEvent.onOpen ∧ e ≠ SocketEvent.manualReset) →
      (runSocketEvents s es).1.useRestFallback = true ∧
      ∀ b ∈ (runSocketEvents s es).2, b = false) ∧
    (∀ s : TransportState,
      socketStep s .manualReset = (⟨0, false, false⟩, false)) := by
  refine ⟨?_, ?_, fun s => rfl⟩
  · intro s hc
    simp only [socketStep]
    rw [if_pos (by omega)]
    exact ⟨rfl, rfl⟩
  · intro s es
    induction es generalizing s with
    | nil => intro hf _ _ _; exact ⟨hf, by simp [runSocketEvents]⟩
    | cons e es ih =>
      intro hf hc ht hall
      have he := hall e (List.mem_cons_self e es)
      have hstep := socketStep_fallback_inert s e hf hc ht he.1 he.2
      have hrest := ih (socketStep s e).1 hstep.1 hstep.2.1 hstep.2.2.1
        (fun x hx => hall x (List.mem_cons_of_mem e hx))
      refine ⟨hrest.1, ?_⟩
      intro b hb
      simp only [runSocketEvents, List.mem_cons] at hb
      rcases hb with hb | hb
      · rw [hb]; exact hstep.2.2.2
      · exact hrest.2 b hb

/-- Witness for the amended C5: a close at counter 2 switches to fallback,
and from the fallback state the trace error, close, timer-fire attempts no
reconnection and stays in fallback. -/
theorem claim_C5_amended_witness :
    2 ≤ (⟨2, false, true⟩ : TransportState).wsFailureCount ∧
    (socketStep ⟨2, false, true⟩ .onClose).1.useRestFallback = true ∧
    (runSocketEvents ⟨3, true, false⟩ [.onError, .onClose, .timerFire]).1.useRestFallback = true ∧
    (∀ b ∈ (runSocketEvents ⟨3, true, false⟩ [.onError, .onClose, .timerFire]).2, b = false) := by
  have h1 := claim_C5_amended.1 ⟨2, false, true⟩ (by norm_num)
  have h2 := claim_C5_amended.2.1 ⟨3, true, false⟩ [.onError, .onClose, .timerFire]
    rfl (by norm_num) rfl (by decide)
  exact ⟨by norm_num, h1.1, h2.1, h2.2⟩

/-! ## Claims about send gating -/

/-- A 33-landmark sample identical to `wLms` except that landmark 11 has
moved vertically by exactly 0.003 — the motion-threshold boundary. -/
def cexMotionLms : List Landmark :=
  List.replicate 11 ⟨1/2, 1/2, 0⟩ ++ [⟨1/2, 1/2 + 3/1000, 0⟩] ++
  List.replicate 21 ⟨1/2, 1/2, 0⟩

/-- The 12-point transport subset of `wLms`. -/
def baseKeypoints : List (List ℚ) :=
  filterRequired (wLms.map fun lm => [lm.x, lm.y, lm.z])

/-- The 12-point transport subset of `cexMotionLms`. -/
def motionKeypoints : List (List ℚ) :=
  filterRequired (cexMotionLms.map fun lm => [lm.x, lm.y, lm.z])

set_option maxRecDepth 4000 in
/-- Counterexample to C6 as stated: a sample whose maximum vertical delta
versus the last sent sample is exactly 0.003 — equal to, not exceeding, the
motion threshold — is still sent (the source tests `maxDelta >=
motionThreshold`). -/
theorem claim_C6_counterexample :
    (sendGateStep ⟨0, some baseKeypoints⟩ 200 (some cexMotionLms) true).2 = true ∧
    maxVerticalDelta motionKeypoints baseKeypoints = motionThreshold ∧
    ¬motionThreshold < maxVerticalDelta motionKeypoints baseKeypoints := by
  decide

/-- C6 (amended): a sample is sent only if at least 100 ms have elapsed
since the last send, its 12-landmark transport subset is structurally
valid, and its maximum per-landmark vertical delta versus the last sent
sample is at least (not strictly above) the 0.003 motion threshold; the
first valid sample that passes the 100 ms elapsed check after a reset is
recorded as the baseline and is not sent. -/
theorem claim_C6_amended :
    (∀ (s : SendState) (now : ℚ) (lm : Option (List Landmark)) (tr : Bool),
      (sendGateStep s now lm tr).2 = true →
      sendIntervalMs ≤ now - s.lastSendTime ∧
      ∃ kps, (formatLandmarks lm).map filterRequired = some kps ∧
        isValidLandmarks (some kps) = true ∧
        ∃ last, s.lastSentKeypoints = some last ∧
          motionThreshold ≤ maxVerticalDelta kps last) ∧
    (∀ (s : SendState) (now : ℚ) (lm : Option (List Landmark)) (tr : Bool)
        (kps : List (List ℚ)),
      s.lastSentKeypoints = none →
      sendIntervalMs ≤ now - s.lastSendTime →
      (formatLandmarks lm).map filterRequired = some kps →
      isValidLandmarks (some kps) = true →
      (sendGateStep s now lm tr).1.lastSentKeypoints = some kps ∧
      (sendGateStep s now lm tr).2 = false) := by
  constructor
  · intro s now lm tr hsent
    rcases lm with _ | lms
    · simp [sendGateStep] at hsent
    · simp only [sendGateStep] at hsent
      by_cases h1 : sendIntervalMs ≤ now - s.lastSendTime
      swap
      · rw [if_neg h1] at hsent; exact absurd hsent (by simp)
      rw [if_pos h1] at hsent
      refine ⟨h1, ?_⟩
      rcases hfmt : (formatLandmarks (some lms)).map filterRequired with _ | kps <;>
        simp only [hfmt] at hsent
      · exact absurd hsent (by simp)
      by_cases h2 : isValidLandmarks (some kps) = true
      swap
      · rw [if_neg h2] at hsent; exact absurd hsent (by simp)
      rw [if_pos h2] at hsent
      refine ⟨kps, rfl, h2, ?_⟩
      rcases hlast : s.lastSentKeypoints with _ | last <;>
        simp only [hlast] at hsent
      · exact absurd hsent (by simp)
      by_cases h3 : hasSufficientMotion kps (some last) = true
      swap
      · rw [if_neg h3] at hsent; exact absurd hsent (by simp)
      simp only [hasSufficientMotion, decide_eq_true_eq] at h3
      exact ⟨last, rfl, h3⟩
  · intro s now lm tr kps hnone h1 hfmt hvalid
    rcases lm with _ | lms
    · simp [formatLandmarks] at hfmt
    · simp only [sendGateStep, h1, if_true, hfmt, hvalid, hnone]
      constructor <;> simp

set_option maxRecDepth 4000 in
/-- Witness for the amended C6: the counterexample's send passed the 100 ms
check, and a first valid sample after a reset is recorded as baseline
without being sent. -/
theorem claim_C6_amended_witness :
    sendIntervalMs ≤ 200 - (⟨0, some baseKeypoints⟩ : SendState).lastSendTime ∧
    (sendGateStep ⟨0, none⟩ 200 (some wLms) true).1.lastSentKeypoints = some baseKeypoints ∧
    (sendGateStep ⟨0, none⟩ 200 (some wLms) true).2 = false := by
  have h2 := claim_C6_amended.2 ⟨0, none⟩ 200 (some wLms) true baseKeypoints rfl
    (by norm_num [sendIntervalMs]) (by decide) (by decide)
  have h1 := claim_C6_amended.1 ⟨0, some baseKeypoints⟩ 200 (some cexMotionLms) true
    (by decide)
  exact ⟨h1.1, h2.1, h2.2⟩

/-! ## Claims about prediction application -/

/-- Counterexample to C7 as stated: a received result with an absent label
resets the displayed prediction to `("",0)` — the displayed label and the
previously displayed confidence (for example `("squat", 0.9)`) are not
retained, and the confidence is reset to zero. -/
theorem claim_C7_counterexample :
    (applyPredictionUpdate 5 ⟨none, some (1/2), none, none, none⟩).1 = ⟨"", 0⟩ ∧
    (⟨"", 0⟩ : Prediction) ≠ ⟨"squat", 9/10⟩ := by
  decide

/-- C7 (amended): applying a classification result always overwrites the
displayed prediction, independently of what was displayed before: an
empty-or-absent label yields `("",0)` (the prior confidence is reset, not
retained); a non-empty trimmed label with a finite confidence — of any
sign, no non-negativity check is applied — yields that label and
confidence; a non-empty label with a non-finite confidence yields the label
with confidence 0. -/
theorem claim_C7_amended :
    (∀ (c : ℚ) (d : PredictionData),
      (d.exercise = none ∨ ∃ s, d.exercise = some s ∧ (trimString s).length = 0) →
      (applyPredictionUpdate c d).1 = ⟨"", 0⟩) ∧
    (∀ (c q : ℚ) (d : PredictionData) (s : String), d.exercise = some s →
      0 < (trimString s).length → d.confidence = some q →
      (applyPredictionUpdate c d).1 = ⟨trimString s, q⟩) ∧
    (∀ (c : ℚ) (d : PredictionData) (s : String), d.exercise = some s →
      0 < (trimString s).length → d.confidence = none →
      (applyPredictionUpdate c d).1 = ⟨trimString s, 0⟩) ∧
    (∀ (c₁ c₂ : ℚ) (d : PredictionData),
      (applyPredictionUpdate c₁ d).1 = (applyPredictionUpdate c₂ d).1) := by
  refine ⟨?_, ?_, ?_, fun c₁ c₂ d => rfl⟩
  · rintro c d (h | ⟨s, hs, hlen⟩)
    · simp [applyPredictionUpdate, h]
    · simp [applyPredictionUpdate, hs, hlen]
  · intro c q d s hs hlen hq
    simp [applyPredictionUpdate, hs, hq, hlen, Nat.pos_iff_ne_zero.mp hlen]
  · intro c d s hs hlen hq
    simp [applyPredictionUpdate, hs, hq, hlen, Nat.pos_iff_ne_zero.mp hlen]

/-- Witness for the amended C7: a negative finite confidence with a
non-empty label is accepted verbatim, and an absent label resets the
displayed prediction. -/
theorem claim_C7_amended_witness :
    (applyPredictionUpdate 0 ⟨some "squat", some (-1), none, none, none⟩).1
      = ⟨trimString "squat", -1⟩ ∧
    (applyPredictionUpdate 7 ⟨none, some (1/2), none, none, none⟩).1 = ⟨"", 0⟩ := by
  exact ⟨claim_C7_amended.2.1 0 (-1) ⟨some "squat", some (-1), none, none, none⟩
      "squat" rfl (by decide) rfl,
    claim_C7_amended.1 7 ⟨none, some (1/2), none, none, none⟩ (Or.inl rfl)⟩

/-! ## Claims about the host bridge -/

/-- C8: the bridge delivers the terminal outcome at most once — a call whose
resolved value is non-null (the acknowledged response) latches `sentOnce`,
and from any state with `sentOnce` set, every subsequent call in the session
resolves to null without invoking the host handler. -/
theorem claim_C8_at_most_once :
    (∀ (st : BridgeState) (p : CompletedPayload) (h : Bool) (r : HostResponse),
      (sendExerciseCompletedToFlutter st p h r).2.1.isSome = true →
      (sendExerciseCompletedToFlutter st p h r).1.sentOnce = true) ∧
    (∀ (st : BridgeState) (cs : List BridgeCall), st.sentOnce = true →
      runBridgeCalls st cs = List.replicate cs.length (none, false)) := by
  constructor
  · intro st p h r hs
    unfold sendExerciseCompletedToFlutter at hs ⊢
    split_ifs at hs ⊢ <;> try simp_all
    cases r <;> simp_all
  · intro st cs hst
    induction cs generalizing st with
    | nil => rfl
    | cons c cs ih =>
      have hstep : sendExerciseCompletedToFlutter st c.payload c.handlerAvailable
          c.response = (st, none, false) := by
        unfold sendExerciseCompletedToFlutter
        rw [if_pos hst]
      simp only [runBridgeCalls, hstep, List.length_cons, List.replicate]
      exact congrArg _ (ih st hst)

/-- A structurally valid completion payload. -/
def validPayload : CompletedPayload :=
  ⟨some "EXERCISE_COMPLETED", some "user-1", some "slot-1", some "done", some 5⟩

/-- Witness for C8: an acknowledged delivery latches `sentOnce`, after which
two further calls both resolve to null without a host call. -/
theorem claim_C8_at_most_once_witness :
    (sendExerciseCompletedToFlutter ⟨true, false⟩ validPayload true .ack).2.1.isSome
      = true ∧
    (sendExerciseCompletedToFlutter ⟨true, false⟩ validPayload true .ack).1.sentOnce
      = true ∧
    runBridgeCalls ⟨true, true⟩
      [⟨validPayload, true, .ack⟩, ⟨validPayload, true, .ack⟩]
      = List.replicate 2 (none, false) := by
  exact ⟨by decide,
    claim_C8_at_most_once.1 ⟨true, false⟩ validPayload true .ack (by decide),
    claim_C8_at_most_once.2 ⟨true, true⟩
      [⟨validPayload, true, .ack⟩, ⟨validPayload, true, .ack⟩] rfl⟩

/-- The bridge's field validation, phrased as the conjunction of the checks
the source performs. -/
lemma payloadChecksPass_iff (p : CompletedPayload) :
    payloadChecksPass p = true ↔
      p.type = some "EXERCISE_COMPLETED" ∧
      (∃ u, p.userId = some u ∧ 0 < (trimString u).length) ∧
      (∃ v, p.slotId = some v ∧ 0 < (trimString v).length) ∧
      (∃ es, p.exerciseStatus = some es ∧
        (es = "done" ∨ es = "tobecontinued" ∨ es = "no_performance")) ∧
      (∃ q, p.repsDone = some q ∧ 0 ≤ q) := by
  obtain ⟨t, u, v, es, rd⟩ := p
  rcases u with _ | u <;> rcases v with _ | v <;> rcases es with _ | es <;>
    rcases rd with _ | rd <;>
    simp [payloadChecksPass]
  tauto

/-- Every `return null` path of the bridge that a failing payload check
triggers performs no host call. -/
lemma sendExerciseCompleted_fail (st : BridgeState) (p : CompletedPayload)
    (h : Bool) (r : HostResponse) (hp : payloadChecksPass p = false) :
    (sendExerciseCompletedToFlutter st p h r).2.1 = none ∧
    (sendExerciseCompletedToFlutter st p h r).2.2 = false := by
  unfold sendExerciseCompletedToFlutter
  split_ifs <;> simp_all

/-- C10: the bridge invokes the host handler only on payloads passing all
field checks (type literal, non-empty trimmed user and slot identifiers, an
accepted status literal, and a finite non-negative repsDone); a payload
failing any check resolves to null without a host call (and the function
never throws: every path, including a host exception, resolves to a
value). -/
theorem claim_C10_bridge_validation :
    ∀ (st : BridgeState) (p : CompletedPayload) (h : Bool) (r : HostResponse),
      ((sendExerciseCompletedToFlutter st p h r).2.2 = true →
        p.type = some "EXERCISE_COMPLETED" ∧
        (∃ u, p.userId = some u ∧ 0 < (trimString u).length) ∧
        (∃ v, p.slotId = some v ∧ 0 < (trimString v).length) ∧
        (∃ es, p.exerciseStatus = some es ∧
          (es = "done" ∨ es = "tobecontinued" ∨ es = "no_performance")) ∧
        (∃ q, p.repsDone = some q ∧ 0 ≤ q)) ∧
      (payloadChecksPass p = false →
        (sendExerciseCompletedToFlutter st p h r).2.1 = none ∧
        (sendExerciseCompletedToFlutter st p h r).2.2 = false) := by
  intro st p h r
  constructor
  · intro hcall
    rw [← payloadChecksPass_iff]
    by_contra hfail
    have hp : payloadChecksPass p = false := by simpa using hfail
    have hnull := sendExerciseCompleted_fail st p h r hp
    rw [hnull.2] at hcall
    exact absurd hcall (by simp)
  · exact sendExerciseCompleted_fail st p h r

/-- Witness for C10: a payload with a missing type field fails the checks
and resolves to null without a host call. -/
theorem claim_C10_bridge_validation_witness :
    payloadChecksPass ⟨none, some "u", some "s", some "done", some 0⟩ = false ∧
    (sendExerciseCompletedToFlutter ⟨true, false⟩
      ⟨none, some "u", some "s", some "done", some 0⟩ true .ack).2.1 = none ∧
    (sendExerciseCompletedToFlutter ⟨true, false⟩
      ⟨none, some "u", some "s", some "done", some 0⟩ true .ack).2.2 = false := by
  refine ⟨by decide, ?_, ?_⟩
  · exact ((claim_C10_bridge_validation ⟨true, false⟩
      ⟨none, some "u", some "s", some "done", some 0⟩ true .ack).2 (by decide)).1
  · exact ((claim_C10_bridge_validation ⟨true, false⟩
      ⟨none, some "u", some "s", some "done", some 0⟩ true .ack).2 (by decide)).2

/-! ## Claim about the angle formula -/

/-- C9: for any three landmarks, `calculateAngle` returns a value in
`[0, 180]` degrees, and whenever either limb vector (endpoint minus vertex)
is the zero vector the result is exactly 180. -/
theorem claim_C9_angle_range (a b c : LandmarkR) :
    calculateAngle a b c ∈ Set.Icc (0 : ℝ) 180 ∧
    (((a.x - b.x = 0 ∧ a.y - b.y = 0) ∨ (c.x - b.x = 0 ∧ c.y - b.y = 0)) →
      calculateAngle a b c = 180) := by
  constructor
  · simp only [calculateAngle]
    split
    · constructor <;> norm_num
    · have hpi := Real.pi_pos
      rw [Set.mem_Icc]
      constructor
      · exact mul_nonneg (Real.arccos_nonneg _) (by positivity)
      · calc
          Real.arccos _ * (180 / Real.pi)
              ≤ Real.pi * (180 / Real.pi) :=
            mul_le_mul_of_nonneg_right (Real.arccos_le_pi _) (by positivity)
          _ = 180 := by field_simp
  · intro h
    have hz : Real.sqrt ((a.x - b.x) ^ 2 + (a.y - b.y) ^ 2) = 0 ∨
        Real.sqrt ((c.x - b.x) ^ 2 + (c.y - b.y) ^ 2) = 0 := by
      rcases h with ⟨h1, h2⟩ | ⟨h1, h2⟩
      · left; rw [h1, h2]; simp
      · right; rw [h1, h2]; simp
    simp only [calculateAngle]
    rw [if_pos hz]

/-- Witness for C9: a degenerate triple with the vertex equal to the first
endpoint yields exactly 180, inside `[0,180]`. -/
theorem claim_C9_angle_range_witness :
    calculateAngle ⟨0, 0, 0⟩ ⟨0, 0, 0⟩ ⟨1, 2, 3⟩ = 180 ∧
    calculateAngle ⟨0, 0, 0⟩ ⟨0, 0, 0⟩ ⟨1, 2, 3⟩ ∈ Set.Icc (0 : ℝ) 180 := by
  have h := claim_C9_angle_range ⟨0, 0, 0⟩ ⟨0, 0, 0⟩ ⟨1, 2, 3⟩
  exact ⟨h.2 (Or.inl ⟨by norm_num, by norm_num⟩), h.1⟩
